import Mathlib

/-
Verification of scripts/db_restore-sqlite2prod.py against its specification.

The script is a one-shot migration utility: authenticate to a remote service,
read all records from a local database (falling back to a JSON file), filter
out default seed data, upload each category to a per-category endpoint, and
report an exit code.  The embedding below translates each function of the
script into a Lean definition.  External effects (the HTTP library, the ORM,
the filesystem, standard input) are modelled as explicit outcome parameters;
everything the script itself computes is translated directly.
-/

namespace DbRestore

/-- Python values as far as the script inspects them: the absent value None,
strings, and string-keyed mappings.  These are the only shapes that the
filtering code reads from a record. -/
inductive PyVal where
  | none
  | str (s : String)
  | dict (fields : List (String × PyVal))
deriving Repr

/-- One record: a Python dict with string keys, as produced by the readers. -/
abbrev Rec := List (String × PyVal)

/-- The category mapping `all_data`: category name to list of records.  Keys
are unique, as in a Python dict. -/
abbrev Data := List (String × List Rec)

/-- Truthiness of a Python value, as used by `or` in the filter: None is
falsy, a string is truthy iff non-empty, a dict is truthy iff non-empty. -/
def truthy : PyVal → Bool
  | PyVal.none => false
  | PyVal.str s => !(s == "")
  | PyVal.dict fields => !fields.isEmpty

/-- Python `a or b`: the left operand if truthy, otherwise the right one. -/
def pyOr (a b : PyVal) : PyVal := if truthy a then a else b

/-- Python `r.get(k)`: the stored value, or None when the key is absent. -/
def dictGet (r : Rec) (k : String) : PyVal := (r.lookup k).getD PyVal.none

/-- Python `r.get(k, dflt)`. -/
def dictGetD (r : Rec) (k : String) (dflt : PyVal) : PyVal := (r.lookup k).getD dflt

/-- Python `k in r` for a dict: key membership. -/
def hasKey (r : Rec) (k : String) : Bool := (r.lookup k).isSome

/-- Python `all_data.get(key, [])`. -/
def getCat (d : Data) (k : String) : List Rec := (d.lookup k).getD []

/-- Python `v == s` where `s` is a string: true only when `v` is that
string.  Used by list membership tests against the exclusion lists. -/
def isStrEq (v : PyVal) (s : String) : Bool :=
  match v with
  | PyVal.str t => t == s
  | _ => false

/-- Lines 88 to 98: the DEFAULT_DATA user list.  The values are taken from
the `except` branch; the `try` branch reads the same keys from the external
`main` module, which is not part of this repository. -/
def DEFAULT_USERS : List String := ["admin", "user", "niko", "toby", "hop"]

/-- Lines 88 to 98: the DEFAULT_DATA section list (identical in both
branches). -/
def DEFAULT_SECTIONS : List String := ["CSA", "CSP", "Robotics", "CSSE"]

/-- Lines 88 to 98: the DEFAULT_DATA topic path list (identical in both
branches). -/
def DEFAULT_TOPICS : List String :=
  ["/lessons/flask-introduction", "/hacks/javascript-basics",
   "/projects/portfolio-showcase", "/general/daily-standup",
   "/resources/study-materials"]

/-- Lines 253 to 255: `uid in DEFAULT_DATA['users']`. -/
def is_default_user (uid : PyVal) : Bool := DEFAULT_USERS.any (isStrEq uid)

/-- Lines 257 to 259: `abbreviation in DEFAULT_DATA['sections']`. -/
def is_default_section (abbreviation : PyVal) : Bool :=
  DEFAULT_SECTIONS.any (isStrEq abbreviation)

/-- Lines 261 to 263: `page_path in DEFAULT_DATA['topics']`. -/
def is_default_topic (page_path : PyVal) : Bool :=
  DEFAULT_TOPICS.any (isStrEq page_path)

/-- Line 299: `m.get('userUid') or m.get('user', \x7b\x7d).get('uid')`.  The
right operand of `or` is evaluated only when the left one is falsy; calling
`.get` on a present non-dict `user` value raises an AttributeError, which is
modelled as the error case. -/
def microblogAuthor (m : Rec) : Except String PyVal :=
  let a := dictGet m "userUid"
  if truthy a then Except.ok a
  else
    match dictGetD m "user" (PyVal.dict []) with
    | PyVal.dict fields => Except.ok (dictGet fields "uid")
    | _ => Except.error "AttributeError: object has no attribute get"

/-- Line 310: `p.get('user', \x7b\x7d).get('uid') if isinstance(p.get('user'), dict)
else None`.  Note that posts, unlike microblogs, never consult the
denormalized `userUid` field. -/
def postAuthor (p : Rec) : PyVal :=
  match dictGet p "user" with
  | PyVal.dict fields => dictGet fields "uid"
  | _ => PyVal.none

/-- Value computed by `microblogAuthor` when it does not raise; None
otherwise.  Used only to state properties of successful runs. -/
def mbAuthorD (m : Rec) : PyVal := (microblogAuthor m).toOption.getD PyVal.none

/-- Monadic filter for a Python list comprehension whose predicate may
raise: the first raise aborts the whole comprehension. -/
def filterME {α : Type} (p : α → Except String Bool) : List α → Except String (List α)
  | [] => Except.ok []
  | x :: xs => do
    let b ← p x
    let rest ← filterME p xs
    pure (if b then x :: rest else rest)

/-- Lines 270 to 275: the users block of filter_default_data.  Returns the
entry inserted into `filtered`, or nothing when the list is empty. -/
def filteredUsersEntry (all_data : Data) : Option (String × List Rec) :=
  if (getCat all_data "users").isEmpty then Option.none
  else Option.some ("users",
    (getCat all_data "users").filter (fun u => !is_default_user (dictGet u "uid")))

/-- Lines 278 to 283: the sections block of filter_default_data. -/
def filteredSectionsEntry (all_data : Data) : Option (String × List Rec) :=
  if (getCat all_data "sections").isEmpty then Option.none
  else Option.some ("sections",
    (getCat all_data "sections").filter (fun s => !is_default_section (dictGet s "abbreviation")))

/-- Lines 285 to 292: the topics block of filter_default_data.  The key
spelling is chosen once, from the first record of the list. -/
def filteredTopicsEntry (all_data : Data) : Option (String × List Rec) :=
  if (getCat all_data "topics").isEmpty then Option.none
  else
    let page_path_key :=
      if !(getCat all_data "topics").isEmpty && hasKey ((getCat all_data "topics").headD []) "pagePath"
      then "pagePath" else "page_path"
    Option.some ("topics",
      (getCat all_data "topics").filter (fun t =>
        !is_default_topic (pyOr (dictGet t page_path_key) (dictGet t "page_path"))))

/-- Lines 294 to 303: the microblogs block of filter_default_data.  The
comprehension may raise through `microblogAuthor`. -/
def filteredMicroblogsEntry (all_data : Data) : Except String (Option (String × List Rec)) :=
  if (getCat all_data "microblogs").isEmpty then Except.ok Option.none
  else do
    let kept ← filterME
      (fun m => (microblogAuthor m).map (fun a => !is_default_user a))
      (getCat all_data "microblogs")
    pure (Option.some ("microblogs", kept))

/-- Lines 305 to 314: the posts block of filter_default_data. -/
def filteredPostsEntry (all_data : Data) : Option (String × List Rec) :=
  if (getCat all_data "posts").isEmpty then Option.none
  else Option.some ("posts",
    (getCat all_data "posts").filter (fun p => !is_default_user (postAuthor p)))

/-- Lines 265 to 321: filter_default_data.  The `filtered` dict receives the
five category blocks in source order, then every key of `all_data` that is
not yet present is copied unchanged (lines 316 to 319). -/
def filter_default_data (all_data : Data) : Except String Data := do
  let mbs ← filteredMicroblogsEntry all_data
  let filtered : Data :=
    (filteredUsersEntry all_data).toList ++ (filteredSectionsEntry all_data).toList ++
    (filteredTopicsEntry all_data).toList ++ mbs.toList ++ (filteredPostsEntry all_data).toList
  pure (filtered ++ all_data.filter (fun kv => (filtered.lookup kv.1).isNone))

/-! ## Module top level (lines 29 to 59)

The module body executes statements in order.  Name resolution at line 58 is
modelled by looking the name up among the bindings created so far. -/

/-- Names bound at module top level before line 58 executes: the four
imports (lines 29 to 32) and the four configuration constants (lines 38 to
55).  The call `sys.path.append(...)` on line 35 binds nothing. -/
def moduleNamesBeforeCredentialBinding : List String :=
  ["requests", "json", "os", "sys", "BASE_URL", "PROD_AUTH_URL", "LOCAL_JSON", "IMPORT_ENDPOINTS"]

/-- Evaluation of a bare name against the set of bindings in scope: a bound
name evaluates, an unbound one raises NameError. -/
def evalModuleName (boundNames : List String) (n : String) : Except String Unit :=
  if boundNames.contains n then Except.ok ()
  else Except.error ("NameError: name " ++ n ++ " is not defined")

/-- Lines 57 to 59: `UID = app.config['ADMIN_UID']` followed by
`PASSWORD = app.config['ADMIN_PASSWORD']`.  Each right-hand side first
evaluates the name `app`; `from main import app` only runs later, at
line 63. -/
def credentialBindings : Except String Unit := do
  evalModuleName moduleNamesBeforeCredentialBinding "app"
  evalModuleName (moduleNamesBeforeCredentialBinding ++ ["UID"]) "app"

/-! ## Authenticator (lines 101 to 121) -/

/-- Error mapping returned by authenticate on failure (lines 117 to 121). -/
structure AuthError where
  message : String
  code : Nat
  error : String
deriving Repr, DecidableEq

/-- Result of authenticate when it returns: either the pair
`(response.cookies, None)` or the pair `(None, error_dict)`. -/
inductive AuthResult where
  | ok
  | err (e : AuthError)
deriving Repr, DecidableEq

/-- Outcome of the `requests.post` call on line 112: either the call itself
raised a RequestException (network failure), or a response arrived bearing
an HTTP status code.  The string carries the exception text `str(e)`. -/
inductive PostOutcome where
  | raised (msg : String)
  | resp (status : Nat) (errText : String)
deriving Repr, DecidableEq

/-- Lines 101 to 121: authenticate.  `response.raise_for_status()` raises an
HTTPError exactly when the status code is 400 or above; the handler then
reads `response.status_code` and returns the error mapping.  When
`requests.post` itself raised, the local name `response` was never bound, so
the expression `getattr(response, 'status_code', 0)` in the handler raises
UnboundLocalError, which propagates out of the function; this is the
`Except.error` case.  The uid and password arguments do not influence the
control flow and are absorbed into the post outcome. -/
def authenticate (outcome : PostOutcome) : Except String AuthResult :=
  match outcome with
  | PostOutcome.raised _ =>
      Except.error "UnboundLocalError: local variable response referenced before assignment"
  | PostOutcome.resp status errText =>
      if 400 ≤ status then
        Except.ok (AuthResult.err ⟨"Failed to authenticate", status, errText⟩)
      else Except.ok AuthResult.ok

/-! ## Local data readers (lines 124 to 250) -/

/-- Lines 124 to 231: read_local_data_from_db.  The body of the `try` block
(ORM imports and queries, lines 127 to 228) runs entirely against modules
outside this repository; its outcome, a complete category mapping or a
raised exception, is the parameter.  The function never raises: any
exception from the body is caught on line 230 and converted into a returned
error mapping. -/
def read_local_data_from_db (dbOutcome : Except String Data) : Option Data × Option String :=
  match dbOutcome with
  | Except.ok d => (Option.some d, Option.none)
  | Except.error e => (Option.none, Option.some ("Failed to read from database: " ++ e))

/-- Shape of the JSON document parsed from the fallback file: a bare array
of records, an object mapping category names to record arrays, or any other
JSON value. -/
inductive JDoc where
  | arr (records : List Rec)
  | obj (mapping : Data)
  | scalar
deriving Repr

/-- State of the fallback file: absent, present but not valid JSON, or
present and parsing to a document. -/
inductive JsonFileState where
  | missing
  | malformed
  | parsed (doc : JDoc)
deriving Repr

/-- Lines 234 to 250: read_local_data.  A missing file and an unrecognised
document shape are returned error mappings; `json.load` on a malformed file
raises a JSONDecodeError which nothing in the function catches, hence the
`Except.error` case. -/
def read_local_data (json_file : String) (fs : JsonFileState) :
    Except String (Option Data × Option String) :=
  match fs with
  | JsonFileState.missing =>
      Except.ok (Option.none, Option.some ("JSON file not found: " ++ json_file))
  | JsonFileState.malformed =>
      Except.error "json.JSONDecodeError: Expecting value"
  | JsonFileState.parsed (JDoc.arr records) =>
      Except.ok (Option.some [("users", records)], Option.none)
  | JsonFileState.parsed (JDoc.obj mapping) =>
      Except.ok (Option.some mapping, Option.none)
  | JsonFileState.parsed JDoc.scalar =>
      Except.ok (Option.none, Option.some "Unknown data format in JSON file")

/-- Line 40: the fixed fallback path. -/
def LOCAL_JSON : String := "instance/data.json"

/-- Python str.strip with no argument: remove leading and trailing
whitespace. -/
def pyStrip (s : String) : String :=
  String.mk (((s.data.dropWhile Char.isWhitespace).reverse.dropWhile Char.isWhitespace).reverse)

/-- Python str.lower on the prompt line (ASCII case mapping). -/
def pyLower (s : String) : String := String.mk (s.data.map Char.toLower)

/-! ## Chunked uploader (lines 324 to 405) -/

/-- Lines 44 to 55: IMPORT_ENDPOINTS, in source order. -/
def IMPORT_ENDPOINTS : List (String × String) :=
  [("sections", "/api/export/import/sections"),
   ("users", "/api/export/import/users"),
   ("topics", "/api/export/import/topics"),
   ("microblogs", "/api/export/import/microblogs"),
   ("posts", "/api/export/import/posts"),
   ("classrooms", "/api/export/import/classrooms"),
   ("feedback", "/api/export/import/feedback"),
   ("study", "/api/export/import/study"),
   ("personas", "/api/export/import/personas"),
   ("user_personas", "/api/export/import/user_personas")]

/-- Per-category statistics, as stored into `results[data_type]`.  For a 200
or 201 response this is `response.json().get(data_type, \x7b\x7d)` with the
`.get` defaults of lines 363 to 365 applied. -/
structure Stats where
  imported : Nat
  failed : Nat
  errors : List String
deriving Repr, DecidableEq

/-- Outcome of the `requests.post` call on line 356 for one category: a
response bearing a status code and a parsed body, a `requests.Timeout`, or
another RequestException with its text. -/
inductive EndpointOutcome where
  | resp (status : Nat) (stats : Stats)
  | timeout
  | netError (msg : String)
deriving Repr

/-- Mutable state of the loop in import_all_data: `results`,
`total_imported`, `total_failed`, `failed_endpoints`, plus a count of
requests actually issued (one per non-skipped category). -/
structure ImportState where
  results : List (String × Stats)
  total_imported : Nat
  total_failed : Nat
  failed_endpoints : List (String × String)
  requestsIssued : Nat
deriving Repr, DecidableEq

/-- Lines 341 to 395: one iteration of the upload loop.  An empty category
is skipped before any request; otherwise one request is issued and handled
by status: 200 or 201 reads the body statistics; any other status, a
timeout, or a transport error marks the whole category failed. -/
def stepCategory (net : String → EndpointOutcome) (all_data : Data)
    (st : ImportState) (entry : String × String) : ImportState :=
  let data_list := getCat all_data entry.1
  if data_list.isEmpty then st
  else
    match net entry.1 with
    | EndpointOutcome.resp status stats =>
        if status == 200 || status == 201 then
          { st with
            results := st.results ++ [(entry.1, stats)],
            total_imported := st.total_imported + stats.imported,
            total_failed := st.total_failed + stats.failed,
            requestsIssued := st.requestsIssued + 1 }
        else
          { st with
            results := st.results ++
              [(entry.1, ⟨0, data_list.length, ["HTTP " ++ toString status]⟩)],
            total_failed := st.total_failed + data_list.length,
            failed_endpoints := st.failed_endpoints ++
              [(entry.1, "Status " ++ toString status)],
            requestsIssued := st.requestsIssued + 1 }
    | EndpointOutcome.timeout =>
        { st with
          results := st.results ++ [(entry.1, ⟨0, data_list.length, ["Timeout"]⟩)],
          total_failed := st.total_failed + data_list.length,
          failed_endpoints := st.failed_endpoints ++ [(entry.1, "Request timeout")],
          requestsIssued := st.requestsIssued + 1 }
    | EndpointOutcome.netError msg =>
        { st with
          results := st.results ++ [(entry.1, ⟨0, data_list.length, [msg]⟩)],
          total_failed := st.total_failed + data_list.length,
          failed_endpoints := st.failed_endpoints ++ [(entry.1, msg)],
          requestsIssued := st.requestsIssued + 1 }

/-- Initial loop state (lines 336 to 339). -/
def initImportState : ImportState := ⟨[], 0, 0, [], 0⟩

/-- Lines 324 to 405: import_all_data.  Iterates the ten endpoints in fixed
order and returns True exactly when `failed_endpoints` stayed empty (lines
399 to 405), together with the accumulated state. -/
def import_all_data (all_data : Data) (net : String → EndpointOutcome) :
    Bool × ImportState :=
  let st := IMPORT_ENDPOINTS.foldl (stepCategory net all_data) initImportState
  (st.failed_endpoints.isEmpty, st)

/-! ## Orchestrator (lines 408 to 487) -/

/-- External world of one run: the outcome of the authentication post, the
outcome of the database read body, the state of the fallback JSON file, the
line typed at the prompt, and the per-category endpoint outcomes. -/
structure World where
  authPost : PostOutcome
  db : Except String Data
  jsonFile : JsonFileState
  input : String
  net : String → EndpointOutcome

/-- Lines 421 to 430: the read step of main.  A database error triggers the
fallback read; a fallback error aborts (modelled as `Option.none`); a raise
inside read_local_data propagates. -/
def readPhase (w : World) : Except String (Option Data) :=
  match read_local_data_from_db w.db with
  | (d1, Option.none) => Except.ok d1
  | (_, Option.some _) =>
      match read_local_data LOCAL_JSON w.jsonFile with
      | Except.error e => Except.error e
      | Except.ok (d2, Option.none) => Except.ok d2
      | Except.ok (_, Option.some _) => Except.ok Option.none

/-- Lines 408 to 487: main.  Returns the pair of the process exit code and
the number of upload requests issued; a raised exception anywhere in the
pipeline is the `Except.error` case.  The prompt line is compared after
`.strip().lower()` (line 453), modelled by `pyStrip` and `pyLower`. -/
def main (w : World) : Except String (Nat × Nat) :=
  match authenticate w.authPost with
  | Except.error e => Except.error e
  | Except.ok (AuthResult.err _) => Except.ok (1, 0)
  | Except.ok AuthResult.ok =>
    match readPhase w with
    | Except.error e => Except.error e
    | Except.ok Option.none => Except.ok (1, 0)
    | Except.ok (Option.some all_data) =>
      match filter_default_data all_data with
      | Except.error e => Except.error e
      | Except.ok filtered =>
        if pyLower (pyStrip w.input) ≠ "y" then Except.ok (0, 0)
        else
          let r := import_all_data filtered w.net
          Except.ok ((if r.1 then 0 else 1), r.2.requestsIssued)

/-! ## Association list lemmas -/

theorem lookup_append_none {β : Type} (k : String) :
    ∀ (l₁ l₂ : List (String × β)), l₁.lookup k = Option.none →
      (l₁ ++ l₂).lookup k = l₂.lookup k := by
  intro l₁
  induction l₁ with
  | nil => intro l₂ _; rfl
  | cons hd tl ih =>
    intro l₂ h
    rcases hd with ⟨a, b⟩
    by_cases hk : k == a
    · simp [List.lookup, hk] at h
    · simp only [Bool.not_eq_true] at hk
      simp only [List.lookup, hk] at h
      simpa [List.lookup, hk] using ih l₂ h

theorem lookup_append_some {β : Type} (k : String) (v : β) :
    ∀ (l₁ l₂ : List (String × β)), l₁.lookup k = Option.some v →
      (l₁ ++ l₂).lookup k = Option.some v := by
  intro l₁
  induction l₁ with
  | nil => intro l₂ h; simp [List.lookup] at h
  | cons hd tl ih =>
    intro l₂ h
    rcases hd with ⟨a, b⟩
    by_cases hk : k == a
    · simp_all [List.lookup, hk]
    · simp only [Bool.not_eq_true] at hk
      simp only [List.lookup, hk] at h
      simpa [List.lookup, hk] using ih l₂ h

theorem lookup_none_of_keys {β : Type} (k : String) :
    ∀ (l : List (String × β)), (∀ kv ∈ l, kv.1 ≠ k) → l.lookup k = Option.none := by
  intro l
  induction l with
  | nil => intro _; rfl
  | cons hd tl ih =>
    intro h
    rcases hd with ⟨a, b⟩
    have ha : a ≠ k := h (a, b) (List.mem_cons_self _ _)
    have hk : (k == a) = false := by simpa using Ne.symm ha
    simp only [List.lookup, hk]
    exact ih fun kv hkv => h kv (List.mem_cons_of_mem _ hkv)

theorem lookup_filter_eq {β : Type} (k : String) (p : String × β → Bool) :
    ∀ (l : List (String × β)), (∀ kv ∈ l, kv.1 = k → p kv = true) →
      (l.filter p).lookup k = l.lookup k := by
  intro l
  induction l with
  | nil => intro _; rfl
  | cons hd tl ih =>
    intro h
    have htl : ∀ kv ∈ tl, kv.1 = k → p kv = true :=
      fun kv hkv => h kv (List.mem_cons_of_mem _ hkv)
    rcases hd with ⟨a, b⟩
    by_cases hk : k == a
    · have ha : a = k := (beq_iff_eq.mp hk).symm
      have hp : p (a, b) = true := h (a, b) (List.mem_cons_self _ _) ha
      simp [List.filter, hp, List.lookup, hk]
    · simp only [Bool.not_eq_true] at hk
      cases hp : p (a, b) <;>
        simp [List.filter, hp, List.lookup, hk, ih htl]

/-! ## Keys produced by the filter blocks -/

/-- The five category names that filter_default_data treats specially. -/
def FILTERED_KEYS : List String := ["users", "sections", "topics", "microblogs", "posts"]

theorem filteredUsersEntry_key (d : Data) (e : String × List Rec)
    (h : filteredUsersEntry d = Option.some e) : e.1 = "users" := by
  unfold filteredUsersEntry at h
  split at h
  · exact absurd h (by simp)
  · cases h; rfl

theorem filteredSectionsEntry_key (d : Data) (e : String × List Rec)
    (h : filteredSectionsEntry d = Option.some e) : e.1 = "sections" := by
  unfold filteredSectionsEntry at h
  split at h
  · exact absurd h (by simp)
  · cases h; rfl

theorem filteredTopicsEntry_key (d : Data) (e : String × List Rec)
    (h : filteredTopicsEntry d = Option.some e) : e.1 = "topics" := by
  unfold filteredTopicsEntry at h
  split at h
  · exact absurd h (by simp)
  · cases h; rfl

theorem filteredPostsEntry_key (d : Data) (e : String × List Rec)
    (h : filteredPostsEntry d = Option.some e) : e.1 = "posts" := by
  unfold filteredPostsEntry at h
  split at h
  · exact absurd h (by simp)
  · cases h; rfl

theorem filteredMicroblogsEntry_key (d : Data) (e : String × List Rec)
    (h : filteredMicroblogsEntry d = Except.ok (Option.some e)) : e.1 = "microblogs" := by
  unfold filteredMicroblogsEntry at h
  split at h
  · exact absurd h (by simp)
  · cases hk : filterME
      (fun m => (microblogAuthor m).map (fun a => !is_default_user a))
      (getCat d "microblogs") with
    | error msg => rw [hk] at h; exact absurd h (by simp [Bind.bind, Except.bind])
    | ok kept =>
      rw [hk] at h
      simp only [Bind.bind, Except.bind, pure, Except.pure, Except.ok.injEq,
        Option.some.injEq] at h
      cases h; rfl

/-- The dict `filtered` assembled by filter_default_data, given the already
computed microblogs entry. -/
def filteredFive (all_data : Data) (mbs : Option (String × List Rec)) : Data :=
  (filteredUsersEntry all_data).toList ++ (filteredSectionsEntry all_data).toList ++
  (filteredTopicsEntry all_data).toList ++ mbs.toList ++ (filteredPostsEntry all_data).toList

theorem filter_default_data_eq (d : Data) (mbs : Option (String × List Rec))
    (hm : filteredMicroblogsEntry d = Except.ok mbs) :
    filter_default_data d =
      Except.ok (filteredFive d mbs ++
        d.filter (fun kv => ((filteredFive d mbs).lookup kv.1).isNone)) := by
  unfold filter_default_data filteredFive
  rw [hm]
  rfl

theorem filteredFive_keys (d : Data) (mbs : Option (String × List Rec))
    (hm : filteredMicroblogsEntry d = Except.ok mbs) :
    ∀ kv ∈ filteredFive d mbs, kv.1 ∈ FILTERED_KEYS := by
  intro kv hkv
  unfold filteredFive at hkv
  simp only [List.mem_append] at hkv
  rcases hkv with ((((h | h) | h) | h) | h) <;>
    rw [Option.mem_toList] at h
  · have := filteredUsersEntry_key d kv h
    simp [FILTERED_KEYS, this]
  · have := filteredSectionsEntry_key d kv h
    simp [FILTERED_KEYS, this]
  · have := filteredTopicsEntry_key d kv h
    simp [FILTERED_KEYS, this]
  · have : kv.1 = "microblogs" := by
      apply filteredMicroblogsEntry_key d kv
      rw [hm]; cases h; rfl
    simp [FILTERED_KEYS, this]
  · have := filteredPostsEntry_key d kv h
    simp [FILTERED_KEYS, this]

/-! ## filterME lemmas -/

theorem filterME_ok_mem {α : Type} (p : α → Except String Bool) :
    ∀ (l : List α) (r : List α), filterME p l = Except.ok r →
      ∀ x ∈ l, ∃ b, p x = Except.ok b := by
  intro l
  induction l with
  | nil => intro r _ x hx; exact absurd hx (by simp)
  | cons y ys ih =>
    intro r h x hx
    cases hp : p y with
    | error msg => rw [filterME, hp] at h; exact absurd h (by simp [Bind.bind, Except.bind])
    | ok b =>
      cases hrest : filterME p ys with
      | error msg =>
        rw [filterME, hp, hrest] at h
        exact absurd h (by simp [Bind.bind, Except.bind])
      | ok rest =>
        rcases List.mem_cons.mp hx with rfl | hx
        · exact ⟨b, hp⟩
        · exact ih rest hrest x hx

theorem filterME_ok_eq {α : Type} (p : α → Except String Bool) (q : α → Bool) :
    ∀ (l : List α) (r : List α), filterME p l = Except.ok r →
      (∀ x ∈ l, p x = Except.ok (q x)) → r = l.filter q := by
  intro l
  induction l with
  | nil => intro r h _; simpa [filterME] using h.symm
  | cons y ys ih =>
    intro r h hpq
    have hy : p y = Except.ok (q y) := hpq y (List.mem_cons_self _ _)
    cases hrest : filterME p ys with
    | error msg =>
      rw [filterME, hy, hrest] at h
      exact absurd h (by simp [Bind.bind, Except.bind])
    | ok rest =>
      rw [filterME, hy, hrest] at h
      simp only [Bind.bind, Except.bind, pure, Except.pure, Except.ok.injEq] at h
      have hr : rest = ys.filter q :=
        ih rest hrest fun x hx => hpq x (List.mem_cons_of_mem _ hx)
      cases hq : q y <;> simp [List.filter, hq, ← h, hr]

/-! ## Contribution representation of the upload loop -/

/-- Concatenation of the lists produced for each element, in order. -/
def concatMap {α β : Type} (f : α → List β) : List α → List β
  | [] => []
  | x :: xs => f x ++ concatMap f xs

theorem mem_concatMap {α β : Type} (f : α → List β) :
    ∀ (l : List α) (y : β), y ∈ concatMap f l → ∃ x ∈ l, y ∈ f x := by
  intro l
  induction l with
  | nil => intro y hy; exact absurd hy (by simp [concatMap])
  | cons z zs ih =>
    intro y hy
    rcases List.mem_append.mp hy with h | h
    · exact ⟨z, List.mem_cons_self _ _, h⟩
    · rcases ih y h with ⟨x, hx, hyx⟩
      exact ⟨x, List.mem_cons_of_mem _ hx, hyx⟩

theorem concatMap_eq_nil_iff {α β : Type} (f : α → List β) :
    ∀ (l : List α), concatMap f l = [] ↔ ∀ x ∈ l, f x = [] := by
  intro l
  induction l with
  | nil => simp [concatMap]
  | cons z zs ih => simp [concatMap, ih]

theorem concatMap_map {α β γ : Type} (f : β → List γ) (g : α → β) :
    ∀ (l : List α), concatMap (fun x => f (g x)) l = concatMap f (l.map g) := by
  intro l
  induction l with
  | nil => rfl
  | cons z zs ih => simp [concatMap, ih]

/-- Entry appended to `results` by one loop iteration. -/
def rcontrib (net : String → EndpointOutcome) (all_data : Data) (cat : String) :
    List (String × Stats) :=
  if (getCat all_data cat).isEmpty then []
  else
    match net cat with
    | EndpointOutcome.resp status stats =>
        if status == 200 || status == 201 then [(cat, stats)]
        else [(cat, ⟨0, (getCat all_data cat).length, ["HTTP " ++ toString status]⟩)]
    | EndpointOutcome.timeout => [(cat, ⟨0, (getCat all_data cat).length, ["Timeout"]⟩)]
    | EndpointOutcome.netError msg => [(cat, ⟨0, (getCat all_data cat).length, [msg]⟩)]

/-- Entry appended to `failed_endpoints` by one loop iteration. -/
def fcontrib (net : String → EndpointOutcome) (all_data : Data) (cat : String) :
    List (String × String) :=
  if (getCat all_data cat).isEmpty then []
  else
    match net cat with
    | EndpointOutcome.resp status _ =>
        if status == 200 || status == 201 then []
        else [(cat, "Status " ++ toString status)]
    | EndpointOutcome.timeout => [(cat, "Request timeout")]
    | EndpointOutcome.netError msg => [(cat, msg)]

/-- Number of requests issued for one category: none when skipped. -/
def reqContrib (all_data : Data) (cat : String) : Nat :=
  if (getCat all_data cat).isEmpty then 0 else 1

/-- Sum of the imported counts over a results list. -/
def sumImported (rs : List (String × Stats)) : Nat := (rs.map (fun kv => kv.2.imported)).sum

/-- Sum of the failed counts over a results list. -/
def sumFailed (rs : List (String × Stats)) : Nat := (rs.map (fun kv => kv.2.failed)).sum

theorem sumImported_append (a b : List (String × Stats)) :
    sumImported (a ++ b) = sumImported a + sumImported b := by
  simp [sumImported]

theorem sumFailed_append (a b : List (String × Stats)) :
    sumFailed (a ++ b) = sumFailed a + sumFailed b := by
  simp [sumFailed]

theorem stepCategory_eq (net : String → EndpointOutcome) (all_data : Data)
    (st : ImportState) (entry : String × String) :
    stepCategory net all_data st entry =
      { results := st.results ++ rcontrib net all_data entry.1,
        total_imported := st.total_imported + sumImported (rcontrib net all_data entry.1),
        total_failed := st.total_failed + sumFailed (rcontrib net all_data entry.1),
        failed_endpoints := st.failed_endpoints ++ fcontrib net all_data entry.1,
        requestsIssued := st.requestsIssued + reqContrib all_data entry.1 } := by
  by_cases hemp : (getCat all_data entry.1).isEmpty = true
  · simp [stepCategory, rcontrib, fcontrib, reqContrib, hemp, sumImported, sumFailed]
  · cases hnet : net entry.1 with
    | resp status stats =>
      by_cases hs : status = 200 ∨ status = 201 <;>
        simp [stepCategory, rcontrib, fcontrib, reqContrib, hemp, hnet, hs,
          sumImported, sumFailed]
    | timeout =>
      simp [stepCategory, rcontrib, fcontrib, reqContrib, hemp, hnet,
        sumImported, sumFailed]
    | netError msg =>
      simp [stepCategory, rcontrib, fcontrib, reqContrib, hemp, hnet,
        sumImported, sumFailed]

theorem foldl_stepCategory (net : String → EndpointOutcome) (all_data : Data) :
    ∀ (l : List (String × String)) (st : ImportState),
      l.foldl (stepCategory net all_data) st =
        { results := st.results ++ concatMap (fun e => rcontrib net all_data e.1) l,
          total_imported := st.total_imported +
            sumImported (concatMap (fun e => rcontrib net all_data e.1) l),
          total_failed := st.total_failed +
            sumFailed (concatMap (fun e => rcontrib net all_data e.1) l),
          failed_endpoints := st.failed_endpoints ++
            concatMap (fun e => fcontrib net all_data e.1) l,
          requestsIssued := st.requestsIssued +
            (l.map (fun e => reqContrib all_data e.1)).sum } := by
  intro l
  induction l with
  | nil => intro st; simp [concatMap, sumImported, sumFailed]
  | cons e es ih =>
    intro st
    rw [List.foldl_cons, ih, stepCategory_eq]
    simp [concatMap, sumImported_append, sumFailed_append, Nat.add_assoc]

/-- The ten category names, in upload order. -/
def uploadCats : List String := IMPORT_ENDPOINTS.map Prod.fst

theorem import_all_data_eq (all_data : Data) (net : String → EndpointOutcome) :
    import_all_data all_data net =
      ((concatMap (fcontrib net all_data) uploadCats).isEmpty,
       { results := concatMap (rcontrib net all_data) uploadCats,
         total_imported := sumImported (concatMap (rcontrib net all_data) uploadCats),
         total_failed := sumFailed (concatMap (rcontrib net all_data) uploadCats),
         failed_endpoints := concatMap (fcontrib net all_data) uploadCats,
         requestsIssued := (uploadCats.map (reqContrib all_data)).sum }) := by
  unfold import_all_data uploadCats
  rw [foldl_stepCategory]
  simp only [initImportState, concatMap_map, List.map_map, List.nil_append, Nat.zero_add]
  rfl

theorem rcontrib_key (net : String → EndpointOutcome) (all_data : Data) (cat : String) :
    ∀ kv ∈ rcontrib net all_data cat, kv.1 = cat := by
  intro kv hkv
  by_cases hemp : (getCat all_data cat).isEmpty = true
  · simp [rcontrib, hemp] at hkv
  · cases hnet : net cat with
    | resp status stats =>
      by_cases hs : status = 200 ∨ status = 201
      · simp [rcontrib, hemp, hnet, hs] at hkv
        simp [hkv]
      · simp [rcontrib, hemp, hnet, hs] at hkv
        simp [hkv]
    | timeout =>
      simp [rcontrib, hemp, hnet] at hkv
      simp [hkv]
    | netError msg =>
      simp [rcontrib, hemp, hnet] at hkv
      simp [hkv]

theorem fcontrib_key (net : String → EndpointOutcome) (all_data : Data) (cat : String) :
    ∀ kv ∈ fcontrib net all_data cat, kv.1 = cat := by
  intro kv hkv
  by_cases hemp : (getCat all_data cat).isEmpty = true
  · simp [fcontrib, hemp] at hkv
  · cases hnet : net cat with
    | resp status stats =>
      by_cases hs : status = 200 ∨ status = 201
      · simp [fcontrib, hemp, hnet, hs] at hkv
      · simp [fcontrib, hemp, hnet, hs] at hkv
        simp [hkv]
    | timeout =>
      simp [fcontrib, hemp, hnet] at hkv
      simp [hkv]
    | netError msg =>
      simp [fcontrib, hemp, hnet] at hkv
      simp [hkv]

theorem lookup_concatMap_rcontrib (net : String → EndpointOutcome) (all_data : Data) :
    ∀ (cats : List String), cats.Nodup → ∀ cat ∈ cats,
      (concatMap (rcontrib net all_data) cats).lookup cat =
        (rcontrib net all_data cat).lookup cat := by
  intro cats
  induction cats with
  | nil => intro _ cat hcat; exact absurd hcat (by simp)
  | cons c cs ih =>
    intro hnd cat hcat
    have hcs : cs.Nodup := (List.nodup_cons.mp hnd).2
    have hcnot : c ∉ cs := (List.nodup_cons.mp hnd).1
    rcases List.mem_cons.mp hcat with rfl | hcat
    · show (rcontrib net all_data cat ++ concatMap (rcontrib net all_data) cs).lookup cat = _
      cases hlc : (rcontrib net all_data cat).lookup cat with
      | some v => exact lookup_append_some cat v _ _ hlc
      | none =>
        rw [lookup_append_none cat _ _ hlc]
        apply lookup_none_of_keys
        intro kv hkv
        rcases mem_concatMap _ cs kv hkv with ⟨x, hx, hkvx⟩
        have hkx := rcontrib_key net all_data x kv hkvx
        intro hcontra
        rw [hkx] at hcontra
        rw [hcontra] at hx
        exact hcnot hx
    · have hc : c ≠ cat := fun hcc => hcnot (hcc ▸ hcat)
      show (rcontrib net all_data c ++ concatMap (rcontrib net all_data) cs).lookup cat = _
      rw [lookup_append_none cat _ _ ?_]
      · exact ih hcs cat hcat
      · apply lookup_none_of_keys
        intro kv hkv
        rw [rcontrib_key net all_data c kv hkv]
        exact hc

/-- Status test of line 358: the statuses the uploader accepts. -/
def isOkStatus : EndpointOutcome → Bool
  | EndpointOutcome.resp status _ => status == 200 || status == 201
  | _ => false

/-- No category the uploader attempted suffered an endpoint-level failure:
every non-empty category received a response with status 200 or 201. -/
def noEndpointFailure (all_data : Data) (net : String → EndpointOutcome) : Prop :=
  ∀ cat ∈ uploadCats, (getCat all_data cat).isEmpty = false → isOkStatus (net cat) = true

theorem fcontrib_eq_nil_iff (net : String → EndpointOutcome) (all_data : Data) (cat : String) :
    fcontrib net all_data cat = [] ↔
      ((getCat all_data cat).isEmpty = true ∨ isOkStatus (net cat) = true) := by
  unfold fcontrib isOkStatus
  split
  · simp_all
  · cases hnet : net cat with
    | resp status stats =>
      by_cases hs : (status == 200 || status == 201) = true <;> simp_all
    | timeout => simp_all
    | netError msg => simp_all

theorem import_success_iff (all_data : Data) (net : String → EndpointOutcome) :
    (import_all_data all_data net).1 = true ↔ noEndpointFailure all_data net := by
  rw [import_all_data_eq]
  show (concatMap (fcontrib net all_data) uploadCats).isEmpty = true ↔ _
  rw [List.isEmpty_iff, concatMap_eq_nil_iff]
  unfold noEndpointFailure
  constructor
  · intro h cat hcat hne
    rcases (fcontrib_eq_nil_iff net all_data cat).mp (h cat hcat) with hemp | hok
    · rw [hne] at hemp; exact absurd hemp (by simp)
    · exact hok
  · intro h cat hcat
    rw [fcontrib_eq_nil_iff]
    cases hemp : (getCat all_data cat).isEmpty with
    | true => exact Or.inl rfl
    | false => exact Or.inr (h cat hcat hemp)

/-! ## Lookup helpers for the assembled filter output -/

theorem lookup_toList_of_key_ne {β : Type} (k : String) (o : Option (String × β)) (c : String)
    (hc : ∀ e, o = Option.some e → e.1 = c) (hk : c ≠ k) :
    (o.toList : List (String × β)).lookup k = Option.none := by
  cases o with
  | none => rfl
  | some e =>
    rcases e with ⟨a, b⟩
    have ha : a = c := hc (a, b) rfl
    have hbeq : (k == a) = false := by
      rw [beq_eq_false_iff_ne]
      intro hka
      exact hk (by rw [← ha, ← hka])
    simp [Option.toList, List.lookup, hbeq]

theorem lookup_toList_self {β : Type} (c : String) (v : β) :
    ((Option.some (c, v)).toList : List (String × β)).lookup c = Option.some v := by
  simp [Option.toList, List.lookup]

theorem filteredUsersEntry_of_ne (d : Data) (hne : (getCat d "users").isEmpty = false) :
    filteredUsersEntry d = Option.some ("users",
      (getCat d "users").filter (fun u => !is_default_user (dictGet u "uid"))) := by
  unfold filteredUsersEntry
  rw [hne]
  simp

theorem filteredTopicsEntry_of_ne (d : Data) (hne : (getCat d "topics").isEmpty = false) :
    filteredTopicsEntry d = Option.some ("topics",
      (getCat d "topics").filter (fun t =>
        !is_default_topic (pyOr
          (dictGet t (if hasKey ((getCat d "topics").headD []) "pagePath"
                      then "pagePath" else "page_path"))
          (dictGet t "page_path")))) := by
  unfold filteredTopicsEntry
  rw [hne]
  simp [hne]

theorem filteredPostsEntry_of_ne (d : Data) (hne : (getCat d "posts").isEmpty = false) :
    filteredPostsEntry d = Option.some ("posts",
      (getCat d "posts").filter (fun p => !is_default_user (postAuthor p))) := by
  unfold filteredPostsEntry
  rw [hne]
  simp

theorem filteredMicroblogsEntry_of_ne (d : Data) (hne : (getCat d "microblogs").isEmpty = false)
    (mbs : Option (String × List Rec)) (hm : filteredMicroblogsEntry d = Except.ok mbs) :
    ∃ kept, filterME
        (fun m => (microblogAuthor m).map (fun a => !is_default_user a))
        (getCat d "microblogs") = Except.ok kept ∧
      mbs = Option.some ("microblogs", kept) := by
  unfold filteredMicroblogsEntry at hm
  rw [hne] at hm
  simp only [Bool.false_eq_true, if_false] at hm
  cases hk : filterME
      (fun m => (microblogAuthor m).map (fun a => !is_default_user a))
      (getCat d "microblogs") with
  | error msg =>
    rw [hk] at hm
    exact absurd hm (by simp [Bind.bind, Except.bind])
  | ok kept =>
    rw [hk] at hm
    simp only [Bind.bind, Except.bind, pure, Except.pure, Except.ok.injEq] at hm
    exact ⟨kept, rfl, hm.symm⟩

theorem mb_pred_ok (m : Rec) (b : Bool)
    (hb : (microblogAuthor m).map (fun a => !is_default_user a) = Except.ok b) :
    (microblogAuthor m).map (fun a => !is_default_user a) =
      Except.ok (!is_default_user (mbAuthorD m)) := by
  cases ha : microblogAuthor m with
  | error msg => rw [ha] at hb; exact absurd hb (by simp [Except.map])
  | ok a => simp [Except.map, mbAuthorD, ha, Except.toOption]

theorem dropErr_ok (d : Data) (mbs : Option (String × List Rec))
    (hm : filteredMicroblogsEntry d = Except.ok mbs) :
    ∀ out, filter_default_data d = Except.ok out →
      out = filteredFive d mbs ++
        d.filter (fun kv => ((filteredFive d mbs).lookup kv.1).isNone) := by
  intro out hout
  rw [filter_default_data_eq d mbs hm] at hout
  exact (Except.ok.injEq _ _ ▸ hout).symm ▸ rfl

theorem lookup_five_pos3 {β : Type} (k : String) (u s t m p : List (String × β))
    (hu : u.lookup k = Option.none) (hs2 : s.lookup k = Option.none)
    (hm2 : m.lookup k = Option.none) (hp2 : p.lookup k = Option.none) :
    (u ++ s ++ t ++ m ++ p).lookup k = t.lookup k := by
  have hus : (u ++ s).lookup k = Option.none := by
    rw [lookup_append_none k u s hu]; exact hs2
  have hP : (u ++ s ++ t).lookup k = t.lookup k := lookup_append_none k (u ++ s) t hus
  cases htv : t.lookup k with
  | none =>
    have hPm : (u ++ s ++ t ++ m).lookup k = Option.none := by
      rw [lookup_append_none k (u ++ s ++ t) m (by rw [hP, htv])]; exact hm2
    rw [lookup_append_none k (u ++ s ++ t ++ m) p hPm]; exact hp2
  | some v =>
    have hPm : (u ++ s ++ t ++ m).lookup k = Option.some v :=
      lookup_append_some k v (u ++ s ++ t) m (by rw [hP, htv])
    exact lookup_append_some k v (u ++ s ++ t ++ m) p hPm

theorem lookup_five_pos4 {β : Type} (k : String) (u s t m p : List (String × β))
    (hu : u.lookup k = Option.none) (hs2 : s.lookup k = Option.none)
    (ht2 : t.lookup k = Option.none) (hp2 : p.lookup k = Option.none) :
    (u ++ s ++ t ++ m ++ p).lookup k = m.lookup k := by
  have hus : (u ++ s).lookup k = Option.none := by
    rw [lookup_append_none k u s hu]; exact hs2
  have hP : (u ++ s ++ t).lookup k = Option.none := by
    rw [lookup_append_none k (u ++ s) t hus]; exact ht2
  have hPm : (u ++ s ++ t ++ m).lookup k = m.lookup k :=
    lookup_append_none k (u ++ s ++ t) m hP
  cases hmv : m.lookup k with
  | none =>
    rw [lookup_append_none k (u ++ s ++ t ++ m) p (by rw [hPm, hmv])]; exact hp2
  | some v =>
    exact lookup_append_some k v (u ++ s ++ t ++ m) p (by rw [hPm, hmv])

theorem lookup_five_pos5 {β : Type} (k : String) (u s t m p : List (String × β))
    (hu : u.lookup k = Option.none) (hs2 : s.lookup k = Option.none)
    (ht2 : t.lookup k = Option.none) (hm2 : m.lookup k = Option.none) :
    (u ++ s ++ t ++ m ++ p).lookup k = p.lookup k := by
  have hus : (u ++ s).lookup k = Option.none := by
    rw [lookup_append_none k u s hu]; exact hs2
  have hP : (u ++ s ++ t).lookup k = Option.none := by
    rw [lookup_append_none k (u ++ s) t hus]; exact ht2
  have hPm : (u ++ s ++ t ++ m).lookup k = Option.none := by
    rw [lookup_append_none k (u ++ s ++ t) m hP]; exact hm2
  exact lookup_append_none k (u ++ s ++ t ++ m) p hPm

theorem mem_concatMap_of_mem {α β : Type} (f : α → List β) :
    ∀ (l : List α) (x : α), x ∈ l → ∀ y ∈ f x, y ∈ concatMap f l := by
  intro l
  induction l with
  | nil => intro x hx; exact absurd hx (by simp)
  | cons z zs ih =>
    intro x hx y hy
    rcases List.mem_cons.mp hx with rfl | hx
    · exact List.mem_append.mpr (Or.inl hy)
    · exact List.mem_append.mpr (Or.inr (ih x hx y hy))

theorem lookup_single {β : Type} (c : String) (v : β) :
    (([(c, v)] : List (String × β)).lookup c) = Option.some v := by
  simp [List.lookup]

theorem rcontrib_of_ok (net : String → EndpointOutcome) (d : Data) (cat : String)
    (status : Nat) (stats : Stats)
    (hne : (getCat d cat).isEmpty = false)
    (hnet : net cat = EndpointOutcome.resp status stats)
    (hs : (status == 200 || status == 201) = true) :
    rcontrib net d cat = [(cat, stats)] := by
  unfold rcontrib
  rw [hne, hnet]
  simp [hs]

theorem rcontrib_of_badstatus (net : String → EndpointOutcome) (d : Data) (cat : String)
    (status : Nat) (stats : Stats)
    (hne : (getCat d cat).isEmpty = false)
    (hnet : net cat = EndpointOutcome.resp status stats)
    (hs : (status == 200 || status == 201) = false) :
    rcontrib net d cat = [(cat, ⟨0, (getCat d cat).length, ["HTTP " ++ toString status]⟩)] := by
  unfold rcontrib
  rw [hne, hnet]
  simp [hs]

theorem fcontrib_of_badstatus (net : String → EndpointOutcome) (d : Data) (cat : String)
    (status : Nat) (stats : Stats)
    (hne : (getCat d cat).isEmpty = false)
    (hnet : net cat = EndpointOutcome.resp status stats)
    (hs : (status == 200 || status == 201) = false) :
    fcontrib net d cat = [(cat, "Status " ++ toString status)] := by
  unfold fcontrib
  rw [hne, hnet]
  simp [hs]

/-! ## Path lemmas for main -/

theorem main_eq_auth_raise (w : World) (e : String)
    (h : authenticate w.authPost = Except.error e) : main w = Except.error e := by
  unfold main
  rw [h]

theorem main_eq_auth_err (w : World) (ae : AuthError)
    (h : authenticate w.authPost = Except.ok (AuthResult.err ae)) :
    main w = Except.ok (1, 0) := by
  unfold main
  rw [h]

theorem main_eq_read_err (w : World) (e : String)
    (hauth : authenticate w.authPost = Except.ok AuthResult.ok)
    (h : readPhase w = Except.error e) : main w = Except.error e := by
  unfold main
  rw [hauth, h]

theorem main_eq_read_none (w : World)
    (hauth : authenticate w.authPost = Except.ok AuthResult.ok)
    (h : readPhase w = Except.ok Option.none) : main w = Except.ok (1, 0) := by
  unfold main
  rw [hauth, h]

theorem main_eq_filter_err (w : World) (d : Data) (e : String)
    (hauth : authenticate w.authPost = Except.ok AuthResult.ok)
    (hread : readPhase w = Except.ok (Option.some d))
    (h : filter_default_data d = Except.error e) : main w = Except.error e := by
  unfold main
  rw [hauth, hread]
  dsimp only
  rw [h]

theorem main_eq_pipeline (w : World) (d fd : Data)
    (hauth : authenticate w.authPost = Except.ok AuthResult.ok)
    (hread : readPhase w = Except.ok (Option.some d))
    (hfilt : filter_default_data d = Except.ok fd) :
    main w = if pyLower (pyStrip w.input) ≠ "y" then Except.ok (0, 0)
      else Except.ok ((if (import_all_data fd w.net).1 then 0 else 1),
        (import_all_data fd w.net).2.requestsIssued) := by
  unfold main
  rw [hauth, hread]
  dsimp only
  rw [hfilt]

/-! ## Run outcome predicates (used to state the exit code claim) -/

/-- Authentication returned an error mapping (line 415 saw a truthy error). -/
def authErrP (w : World) : Prop :=
  ∃ e, authenticate w.authPost = Except.ok (AuthResult.err e)

/-- Both the database read and the JSON fallback returned errors. -/
def readsFailedP (w : World) : Prop := readPhase w = Except.ok Option.none

/-- The confirmation line, stripped and lowercased, is exactly y. -/
def proceedsP (w : World) : Prop := pyLower (pyStrip w.input) = "y"

/-- The read and filter stages produced the mapping `fd` for upload. -/
def pipelineP (w : World) (fd : Data) : Prop :=
  ∃ d, readPhase w = Except.ok (Option.some d) ∧ filter_default_data d = Except.ok fd

/-- The run reached the uploader and at least one endpoint-level failure
was recorded. -/
def uploadFailedP (w : World) : Prop :=
  ∃ fd, pipelineP w fd ∧ proceedsP w ∧ (import_all_data fd w.net).1 = false

/-- The operator declined the confirmation prompt after a successful
authentication, read and filter. -/
def abortedP (w : World) : Prop :=
  ¬authErrP w ∧ (∃ fd, pipelineP w fd) ∧ ¬proceedsP w

/-- The run reached the uploader and no endpoint-level failure occurred. -/
def uploadSucceededP (w : World) : Prop :=
  ¬authErrP w ∧ ∃ fd, pipelineP w fd ∧ proceedsP w ∧ (import_all_data fd w.net).1 = true

/-! ## Concrete inputs used by counterexamples and witnesses -/

/-- Category mapping holding one authorless microblog and one post whose
only author information is the denormalized userUid field. -/
def mbPostsCexData : Data :=
  [("microblogs", [[]]),
   ("posts", [[("userUid", PyVal.str "admin")]])]

/-- Topics list whose first record uses the snake-case spelling while the
second carries a default demo path under the camel-case spelling only. -/
def topicsCexData : Data :=
  [("topics", [[("page_path", PyVal.str "/clean/topic")],
               [("pagePath", PyVal.str "/lessons/flask-introduction")]])]

/-- Category mapping with one default and one ordinary user plus a
classroom row derived from the default user. -/
def mixedData : Data :=
  [("users", [[("uid", PyVal.str "admin")], [("uid", PyVal.str "alice")]]),
   ("classrooms", [[("ownerUid", PyVal.str "admin")]])]

/-- Image of `mixedData` under the filter. -/
def mixedDataFiltered : Data :=
  [("users", [[("uid", PyVal.str "alice")]]),
   ("classrooms", [[("ownerUid", PyVal.str "admin")]])]

/-! ## Claims -/

/-- C1: the spec says the administrative identifier and secret are read
from the application configuration before authentication, and that this
binding completes without error.  The code contradicts this: line 58
evaluates the name `app` while only the bindings of lines 29 to 55 exist;
`from main import app` runs only at line 63, so the module body raises
NameError on every run. -/
theorem claim_C1 :
    credentialBindings = Except.error "NameError: name app is not defined" := by
  rfl

/-- C3: the spec says any network error or non-2xx response makes the
Authenticator return an AuthenticationError value carrying the status, or 0
when the status is unknown.  The status-known half works, but on a network
error the except handler of lines 116 to 121 evaluates the never-bound
local `response`, so authenticate raises UnboundLocalError instead of
returning the error value with code 0. -/
theorem claim_C3 :
    (∀ msg, authenticate (PostOutcome.raised msg) =
      Except.error "UnboundLocalError: local variable response referenced before assignment") ∧
    (∀ status errText, 400 ≤ status → authenticate (PostOutcome.resp status errText) =
      Except.ok (AuthResult.err ⟨"Failed to authenticate", status, errText⟩)) ∧
    (∀ status errText, status < 400 → authenticate (PostOutcome.resp status errText) =
      Except.ok AuthResult.ok) := by
  refine ⟨fun msg => rfl, fun status errText hs => ?_, fun status errText hs => ?_⟩
  · simp only [authenticate]
    rw [if_pos hs]
  · simp only [authenticate]
    rw [if_neg (by omega)]

/-- C3 witness: the second and third conjuncts carry hypotheses; at status
500 the function returns the error value with that code, and at 200 it
returns the cookies. -/
theorem claim_C3_witness :
    400 ≤ 500 ∧
    authenticate (PostOutcome.resp 500 "server error") =
      Except.ok (AuthResult.err ⟨"Failed to authenticate", 500, "server error"⟩) ∧
    authenticate (PostOutcome.raised "ConnectionError") =
      Except.error "UnboundLocalError: local variable response referenced before assignment" :=
  ⟨by decide, (claim_C3.2.1) 500 "server error" (by decide), (claim_C3.1) "ConnectionError"⟩

/-- C7 counterexample: the claim says a malformed fallback file yields a
returned (not raised) error value.  On a file that exists but does not
parse, `json.load` raises and nothing catches it, so read_local_data raises
instead of returning. -/
theorem claim_C7_counterexample :
    read_local_data LOCAL_JSON JsonFileState.malformed =
      Except.error "json.JSONDecodeError: Expecting value" ∧
    (read_local_data LOCAL_JSON JsonFileState.malformed).isOk = false :=
  ⟨rfl, rfl⟩

/-- C7 amended: a missing file yields a returned error value, a bare array
is interpreted as the users category alone, an object is returned as the
category mapping itself, any other parsed shape yields a returned error
value, and a malformed file raises. -/
theorem claim_C7 :
    (∀ jf : String, read_local_data jf JsonFileState.missing =
      Except.ok (Option.none, Option.some ("JSON file not found: " ++ jf))) ∧
    (∀ jf records, read_local_data jf (JsonFileState.parsed (JDoc.arr records)) =
      Except.ok (Option.some [("users", records)], Option.none)) ∧
    (∀ jf mapping, read_local_data jf (JsonFileState.parsed (JDoc.obj mapping)) =
      Except.ok (Option.some mapping, Option.none)) ∧
    (∀ jf, read_local_data jf (JsonFileState.parsed JDoc.scalar) =
      Except.ok (Option.none, Option.some "Unknown data format in JSON file")) ∧
    (∀ jf, ∃ msg, read_local_data jf JsonFileState.malformed = Except.error msg) :=
  ⟨fun _ => rfl, fun _ _ => rfl, fun _ _ => rfl, fun _ => rfl, fun _ => ⟨_, rfl⟩⟩

/-- C2 counterexample: the claim says the author of a post is read from
userUid first, and that records whose author cannot be determined are
removed.  The code keeps a post whose userUid is the excluded `admin`
(posts only consult a nested user mapping) and keeps an authorless
microblog, so both records survive the filter unchanged. -/
theorem claim_C2_counterexample :
    "admin" ∈ DEFAULT_USERS ∧
    filter_default_data mbPostsCexData = Except.ok mbPostsCexData :=
  ⟨by decide, by rfl⟩

/-- C9 counterexample: the claim says both field-name spellings are checked
for every record in the topics list.  The key spelling is chosen from the
first record alone: with a snake-case first record, a later record whose
default demo path sits under the camel-case key is kept. -/
theorem claim_C9_counterexample :
    "/lessons/flask-introduction" ∈ DEFAULT_TOPICS ∧
    filter_default_data topicsCexData = Except.ok topicsCexData :=
  ⟨by decide, by rfl⟩

/-- Category mapping with default and ordinary authors in both microblogs
and posts, under the field shapes each branch actually reads. -/
def mbPostsData : Data :=
  [("microblogs", [[("userUid", PyVal.str "admin")], [("userUid", PyVal.str "alice")]]),
   ("posts", [[("user", PyVal.dict [("uid", PyVal.str "admin")])],
              [("user", PyVal.dict [("uid", PyVal.str "bob")])]])]

/-- Image of `mbPostsData` under the filter. -/
def mbPostsDataFiltered : Data :=
  [("microblogs", [[("userUid", PyVal.str "alice")]]),
   ("posts", [[("user", PyVal.dict [("uid", PyVal.str "bob")])]])]

/-- Topics list using the camel-case spelling in its first record. -/
def topicsCamelData : Data :=
  [("topics", [[("pagePath", PyVal.str "/lessons/flask-introduction")],
               [("pagePath", PyVal.str "/my/own/topic")]])]

/-- Image of `topicsCamelData` under the filter. -/
def topicsCamelFiltered : Data :=
  [("topics", [[("pagePath", PyVal.str "/my/own/topic")]])]

/-- C2 amended: the filter keeps exactly the microblogs whose author, read
from a truthy userUid and otherwise from the nested user mapping, is not in
the default-user set, and exactly the posts whose nested user mapping uid
is not in that set; posts never consult userUid, and a record whose author
cannot be determined resolves to None, which is not a default user, so the
record is kept rather than removed. -/
theorem claim_C2 (d out : Data) (h : filter_default_data d = Except.ok out) :
    is_default_user PyVal.none = false ∧
    ((getCat d "posts").isEmpty = false →
      out.lookup "posts" = Option.some
        ((getCat d "posts").filter (fun p => !is_default_user (postAuthor p)))) ∧
    ((getCat d "microblogs").isEmpty = false →
      out.lookup "microblogs" = Option.some
        ((getCat d "microblogs").filter (fun m => !is_default_user (mbAuthorD m)))) := by
  cases hmb : filteredMicroblogsEntry d with
  | error msg =>
    unfold filter_default_data at h
    rw [hmb] at h
    exact absurd h (by simp [Bind.bind, Except.bind])
  | ok mbs =>
    have hout := dropErr_ok d mbs hmb out h
    have hmkey : ∀ e, mbs = Option.some e → e.1 = "microblogs" :=
      fun e he => filteredMicroblogsEntry_key d e (he ▸ hmb)
    refine ⟨by decide, ?_, ?_⟩
    · intro hp
      have hpv := filteredPostsEntry_of_ne d hp
      have hff : (filteredFive d mbs).lookup "posts" =
          ((filteredPostsEntry d).toList : Data).lookup "posts" :=
        lookup_five_pos5 "posts" _ _ _ _ _
          (lookup_toList_of_key_ne _ _ _ (filteredUsersEntry_key d) (by decide))
          (lookup_toList_of_key_ne _ _ _ (filteredSectionsEntry_key d) (by decide))
          (lookup_toList_of_key_ne _ _ _ (filteredTopicsEntry_key d) (by decide))
          (lookup_toList_of_key_ne _ _ _ hmkey (by decide))
      rw [hpv] at hff
      rw [lookup_toList_self] at hff
      rw [hout]
      exact lookup_append_some _ _ _ _ hff
    · intro hm2
      obtain ⟨kept, hk, hmbs⟩ := filteredMicroblogsEntry_of_ne d hm2 mbs hmb
      have hmem := filterME_ok_mem _ _ _ hk
      have hkeq : kept = (getCat d "microblogs").filter
          (fun m => !is_default_user (mbAuthorD m)) :=
        filterME_ok_eq _ _ _ _ hk (fun x hx => by
          obtain ⟨b, hb⟩ := hmem x hx
          exact mb_pred_ok x b hb)
      subst hmbs
      subst hkeq
      have hff : (filteredFive d (Option.some ("microblogs",
            (getCat d "microblogs").filter (fun m => !is_default_user (mbAuthorD m))))).lookup
              "microblogs" =
          ((Option.some ("microblogs",
            (getCat d "microblogs").filter (fun m => !is_default_user (mbAuthorD m)))).toList :
              Data).lookup "microblogs" :=
        lookup_five_pos4 "microblogs" _ _ _ _ _
          (lookup_toList_of_key_ne _ _ _ (filteredUsersEntry_key d) (by decide))
          (lookup_toList_of_key_ne _ _ _ (filteredSectionsEntry_key d) (by decide))
          (lookup_toList_of_key_ne _ _ _ (filteredTopicsEntry_key d) (by decide))
          (lookup_toList_of_key_ne _ _ _ (filteredPostsEntry_key d) (by decide))
      rw [lookup_toList_self] at hff
      rw [hout]
      exact lookup_append_some _ _ _ _ hff

/-- C2 witness: on a mapping holding default and ordinary authors in both
categories, the filter keeps exactly the non-default ones. -/
theorem claim_C2_witness :
    filter_default_data mbPostsData = Except.ok mbPostsDataFiltered ∧
    is_default_user PyVal.none = false ∧
    mbPostsDataFiltered.lookup "posts" = Option.some
      ((getCat mbPostsData "posts").filter (fun p => !is_default_user (postAuthor p))) ∧
    mbPostsDataFiltered.lookup "microblogs" = Option.some
      ((getCat mbPostsData "microblogs").filter (fun m => !is_default_user (mbAuthorD m))) := by
  have h := claim_C2 mbPostsData mbPostsDataFiltered (by rfl)
  exact ⟨by rfl, h.1, h.2.1 (by rfl), h.2.2 (by rfl)⟩

/-- C9 amended: the topics filter chooses the key spelling once, from the
first record of the list: when that record has a camel-case pagePath key,
every record is read under it with a fallback to the snake-case key;
otherwise only the snake-case key is consulted.  A record is removed
exactly when the resulting value is in the fixed demo topic path set. -/
theorem claim_C9 (d out : Data) (h : filter_default_data d = Except.ok out)
    (ht : (getCat d "topics").isEmpty = false) :
    out.lookup "topics" = Option.some
      ((getCat d "topics").filter (fun t =>
        !is_default_topic (pyOr
          (dictGet t (if hasKey ((getCat d "topics").headD []) "pagePath"
                      then "pagePath" else "page_path"))
          (dictGet t "page_path")))) := by
  cases hmb : filteredMicroblogsEntry d with
  | error msg =>
    unfold filter_default_data at h
    rw [hmb] at h
    exact absurd h (by simp [Bind.bind, Except.bind])
  | ok mbs =>
    have hout := dropErr_ok d mbs hmb out h
    have hmkey : ∀ e, mbs = Option.some e → e.1 = "microblogs" :=
      fun e he => filteredMicroblogsEntry_key d e (he ▸ hmb)
    have htv := filteredTopicsEntry_of_ne d ht
    have hff : (filteredFive d mbs).lookup "topics" =
        ((filteredTopicsEntry d).toList : Data).lookup "topics" :=
      lookup_five_pos3 "topics" _ _ _ _ _
        (lookup_toList_of_key_ne _ _ _ (filteredUsersEntry_key d) (by decide))
        (lookup_toList_of_key_ne _ _ _ (filteredSectionsEntry_key d) (by decide))
        (lookup_toList_of_key_ne _ _ _ hmkey (by decide))
        (lookup_toList_of_key_ne _ _ _ (filteredPostsEntry_key d) (by decide))
    rw [htv] at hff
    rw [lookup_toList_self] at hff
    rw [hout]
    exact lookup_append_some _ _ _ _ hff

/-- C9 witness: with a camel-case first record, every record is checked
under the camel-case key and the default demo topic is removed. -/
theorem claim_C9_witness :
    filter_default_data topicsCamelData = Except.ok topicsCamelFiltered ∧
    (getCat topicsCamelData "topics").isEmpty = false ∧
    topicsCamelFiltered.lookup "topics" = Option.some
      ((getCat topicsCamelData "topics").filter (fun t =>
        !is_default_topic (pyOr
          (dictGet t (if hasKey ((getCat topicsCamelData "topics").headD []) "pagePath"
                      then "pagePath" else "page_path"))
          (dictGet t "page_path")))) :=
  ⟨by rfl, by rfl, claim_C9 topicsCamelData topicsCamelFiltered (by rfl) (by rfl)⟩

/-- Category mapping with one users record, used by the 202 counterexample. -/
def cex202Data : Data := [("users", [[("uid", PyVal.str "zoe")]])]

/-- Network returning status 202 with a body reporting five imports. -/
def net202 : String → EndpointOutcome := fun _ => EndpointOutcome.resp 202 ⟨5, 0, []⟩

/-- Category mapping of ten classroom records. -/
def classrooms10Data : Data := [("classrooms", List.replicate 10 [])]

/-- Network returning HTTP 500 everywhere. -/
def net500 : String → EndpointOutcome := fun _ => EndpointOutcome.resp 500 ⟨0, 0, []⟩

/-- C5 counterexample: the claim says any 2xx response has its body
statistics taken and accumulated.  The code accepts only statuses 200 and
201: on a 202 response whose body reports five imports, the category is
instead recorded as wholly failed and the endpoint marked failed. -/
theorem claim_C5_counterexample :
    (200 ≤ 202 ∧ 202 < 300) ∧
    (import_all_data cex202Data net202).2.results.lookup "users" =
      Option.some ⟨0, 1, ["HTTP 202"]⟩ ∧
    (import_all_data cex202Data net202).2.results.lookup "users" ≠
      Option.some ⟨5, 0, []⟩ ∧
    (import_all_data cex202Data net202).1 = false :=
  ⟨by decide, by rfl, by decide, by rfl⟩

/-- C5 amended: for every non-empty category attempted, a response with
status 200 or 201 has its body statistics recorded for that category, and
any response with another status records imported 0 and failed equal to the
record count, adds the endpoint to the failed list, and makes the overall
result a failure; the running totals equal the sums over the recorded
per-category statistics. -/
theorem claim_C5 (d : Data) (net : String → EndpointOutcome) (cat : String)
    (hmem : cat ∈ uploadCats) (hne : (getCat d cat).isEmpty = false) :
    (∀ status stats, net cat = EndpointOutcome.resp status stats →
      (status = 200 ∨ status = 201) →
      (import_all_data d net).2.results.lookup cat = Option.some stats) ∧
    (∀ status stats, net cat = EndpointOutcome.resp status stats →
      ¬(status = 200 ∨ status = 201) →
      (import_all_data d net).2.results.lookup cat =
        Option.some ⟨0, (getCat d cat).length, ["HTTP " ++ toString status]⟩ ∧
      (cat, "Status " ++ toString status) ∈ (import_all_data d net).2.failed_endpoints ∧
      (import_all_data d net).1 = false) ∧
    ((import_all_data d net).2.total_imported = sumImported (import_all_data d net).2.results ∧
     (import_all_data d net).2.total_failed = sumFailed (import_all_data d net).2.results) := by
  have hnd : uploadCats.Nodup := by decide
  have hlook : (import_all_data d net).2.results.lookup cat =
      (rcontrib net d cat).lookup cat := by
    rw [import_all_data_eq]
    exact lookup_concatMap_rcontrib net d uploadCats hnd cat hmem
  refine ⟨?_, ?_, ?_⟩
  · intro status stats hnet hs
    have hs' : (status == 200 || status == 201) = true := by
      rcases hs with rfl | rfl <;> rfl
    rw [hlook, rcontrib_of_ok net d cat status stats hne hnet hs', lookup_single]
  · intro status stats hnet hs
    rw [not_or] at hs
    have hs' : (status == 200 || status == 201) = false := by
      have h1 : (status == 200) = false := beq_eq_false_iff_ne.mpr hs.1
      have h2 : (status == 201) = false := beq_eq_false_iff_ne.mpr hs.2
      rw [h1, h2]
      rfl
    have hfc : (cat, "Status " ++ toString status) ∈
        concatMap (fcontrib net d) uploadCats := by
      apply mem_concatMap_of_mem _ uploadCats cat hmem
      rw [fcontrib_of_badstatus net d cat status stats hne hnet hs']
      exact List.mem_singleton.mpr rfl
    refine ⟨?_, ?_, ?_⟩
    · rw [hlook, rcontrib_of_badstatus net d cat status stats hne hnet hs', lookup_single]
    · rw [import_all_data_eq]
      exact hfc
    · rw [import_all_data_eq]
      show (concatMap (fcontrib net d) uploadCats).isEmpty = false
      cases hl : concatMap (fcontrib net d) uploadCats with
      | nil => rw [hl] at hfc; exact absurd hfc (by simp)
      | cons a as => rfl
  · rw [import_all_data_eq]
    exact ⟨rfl, rfl⟩

/-- C5 witness: HTTP 500 for classrooms with ten records yields failed 10,
imported 0, a failed endpoint entry, and overall failure. -/
theorem claim_C5_witness :
    "classrooms" ∈ uploadCats ∧
    (getCat classrooms10Data "classrooms").isEmpty = false ∧
    ((import_all_data classrooms10Data net500).2.results.lookup "classrooms" =
      Option.some ⟨0, 10, ["HTTP 500"]⟩ ∧
     ("classrooms", "Status 500") ∈
       (import_all_data classrooms10Data net500).2.failed_endpoints ∧
     (import_all_data classrooms10Data net500).1 = false) :=
  ⟨by decide, by rfl,
   (claim_C5 classrooms10Data net500 "classrooms" (by decide) (by rfl)).2.1
     500 ⟨0, 0, []⟩ rfl (by decide)⟩

/-- One ordinary user, fixed point of the filter. -/
def dUsers : Data := [("users", [[("uid", PyVal.str "alice")]])]

/-- World that reaches the prompt with the line Y typed. -/
def worldY : World :=
  { authPost := PostOutcome.resp 200 "",
    db := Except.ok dUsers,
    jsonFile := JsonFileState.missing,
    input := "Y",
    net := fun _ => EndpointOutcome.resp 200 ⟨1, 0, []⟩ }

/-- World that reaches the prompt with the line yes typed. -/
def worldYes : World :=
  { authPost := PostOutcome.resp 200 "",
    db := Except.ok dUsers,
    jsonFile := JsonFileState.missing,
    input := "yes",
    net := fun _ => EndpointOutcome.resp 200 ⟨1, 0, []⟩ }

/-- World that confirms with y and uploads successfully. -/
def worldOk : World :=
  { authPost := PostOutcome.resp 200 "",
    db := Except.ok dUsers,
    jsonFile := JsonFileState.missing,
    input := "y",
    net := fun _ => EndpointOutcome.resp 200 ⟨1, 0, []⟩ }

/-- World whose database read raises and whose fallback file is absent. -/
def worldDbFail : World :=
  { authPost := PostOutcome.resp 200 "",
    db := Except.error "no such table: users",
    jsonFile := JsonFileState.missing,
    input := "y",
    net := fun _ => EndpointOutcome.resp 200 ⟨0, 0, []⟩ }

/-- C4 counterexample: the claim says every prompt line other than exactly
y, including Y, aborts with exit code 0 and zero upload requests.  The line
is passed through strip and lower before comparison, so Y proceeds: the run
issues one upload request instead of zero. -/
theorem claim_C4_counterexample :
    main worldY = Except.ok (0, 1) ∧ main worldY ≠ Except.ok (0, 0) := by
  have h1 : main worldY = Except.ok (0, 1) := by rfl
  refine ⟨h1, ?_⟩
  rw [h1]
  simp

/-- C4 amended: in a run that reaches the prompt, every line whose stripped
lowercased form differs from y aborts with exit code 0 and zero upload
requests, and every line whose stripped lowercased form is y proceeds to
the upload step. -/
theorem claim_C4 (w : World) (d fd : Data)
    (hauth : authenticate w.authPost = Except.ok AuthResult.ok)
    (hread : readPhase w = Except.ok (Option.some d))
    (hfilt : filter_default_data d = Except.ok fd) :
    (pyLower (pyStrip w.input) ≠ "y" → main w = Except.ok (0, 0)) ∧
    (pyLower (pyStrip w.input) = "y" →
      main w = Except.ok ((if (import_all_data fd w.net).1 then 0 else 1),
        (import_all_data fd w.net).2.requestsIssued)) := by
  rw [main_eq_pipeline w d fd hauth hread hfilt]
  constructor
  · intro hin
    rw [if_pos hin]
  · intro hin
    rw [if_neg (fun hc => hc hin)]

/-- C4 witness: the line yes aborts with exit code 0 and zero requests. -/
theorem claim_C4_witness :
    authenticate worldYes.authPost = Except.ok AuthResult.ok ∧
    readPhase worldYes = Except.ok (Option.some dUsers) ∧
    filter_default_data dUsers = Except.ok dUsers ∧
    pyLower (pyStrip worldYes.input) ≠ "y" ∧
    main worldYes = Except.ok (0, 0) :=
  ⟨rfl, rfl, rfl, by decide,
   (claim_C4 worldYes dUsers dUsers rfl rfl rfl).1 (by decide)⟩

/-- C8: every exception from the database read body is caught and turned
into a returned error mapping, and the orchestrator then consults the JSON
fallback read: the read phase outcome is exactly the processed fallback
result, and the run aborts with exit code 1 only after the fallback also
returned an error. -/
theorem claim_C8 (w : World) (e : String) (hdb : w.db = Except.error e) :
    read_local_data_from_db w.db =
      (Option.none, Option.some ("Failed to read from database: " ++ e)) ∧
    readPhase w = (read_local_data LOCAL_JSON w.jsonFile).map
      (fun p => match p.2 with
        | Option.none => p.1
        | Option.some _ => Option.none) ∧
    (∀ msg, read_local_data LOCAL_JSON w.jsonFile =
        Except.ok (Option.none, Option.some msg) →
      authenticate w.authPost = Except.ok AuthResult.ok →
      main w = Except.ok (1, 0)) := by
  refine ⟨by rw [hdb]; rfl, ?_, ?_⟩
  · unfold readPhase
    rw [hdb]
    cases hrl : read_local_data LOCAL_JSON w.jsonFile with
    | error e2 => simp [read_local_data_from_db, hrl, Except.map]
    | ok p =>
      rcases p with ⟨d2, e2⟩
      cases e2 <;> simp [read_local_data_from_db, hrl, Except.map]
  · intro msg hmsg hauth
    have hrp : readPhase w = Except.ok Option.none := by
      unfold readPhase
      rw [hdb]
      dsimp only [read_local_data_from_db]
      rw [hmsg]
    exact main_eq_read_none w hauth hrp

/-- C8 witness: with a failing database read, a missing fallback file and a
successful authentication, the error is returned (not raised) and the run
exits with code 1 after the fallback was consulted. -/
theorem claim_C8_witness :
    worldDbFail.db = Except.error "no such table: users" ∧
    read_local_data_from_db worldDbFail.db =
      (Option.none, Option.some "Failed to read from database: no such table: users") ∧
    main worldDbFail = Except.ok (1, 0) :=
  ⟨rfl,
   (claim_C8 worldDbFail "no such table: users" rfl).1,
   (claim_C8 worldDbFail "no such table: users" rfl).2.2
     "JSON file not found: instance/data.json" rfl rfl⟩

/-- C6: the overall upload result is success exactly when no attempted
category suffered an endpoint-level failure, where endpoint-level failure
means a response with a status other than 200 or 201, a timeout, or a
transport error, per-record failed counts inside accepted response bodies
notwithstanding; and for every run that terminates normally, the exit code
is 1 exactly on an authentication error, failure of both reads, or at least
one endpoint-level upload failure, and 0 exactly on a completed upload with
no endpoint-level failure or an operator abort. -/
theorem claim_C6 (w : World) (code reqs : Nat) (h : main w = Except.ok (code, reqs)) :
    (∀ d2 net2, (import_all_data d2 net2).1 = true ↔ noEndpointFailure d2 net2) ∧
    (code = 1 ↔ (authErrP w ∨ readsFailedP w ∨ uploadFailedP w)) ∧
    (code = 0 ↔ (uploadSucceededP w ∨ abortedP w)) := by
  cases hauth : authenticate w.authPost with
  | error ea =>
    rw [main_eq_auth_raise w ea hauth] at h
    exact absurd h (by simp)
  | ok ra =>
    cases ra with
    | err ae =>
      rw [main_eq_auth_err w ae hauth] at h
      have hc : code = 1 := by
        injection h with h1
        exact (congrArg Prod.fst h1).symm
      subst hc
      have hA : authErrP w := ⟨ae, hauth⟩
      refine ⟨fun d2 net2 => import_success_iff d2 net2,
        ⟨fun _ => Or.inl hA, fun _ => rfl⟩, ?_⟩
      constructor
      · intro h10
        exact absurd h10 (by simp)
      · rintro (⟨hnA, _⟩ | ⟨hnA, _, _⟩) <;> exact absurd hA hnA
    | ok =>
      have hnA : ¬authErrP w := by
        rintro ⟨e2, he2⟩
        rw [hauth] at he2
        simp at he2
      cases hread : readPhase w with
      | error er =>
        rw [main_eq_read_err w er hauth hread] at h
        exact absurd h (by simp)
      | ok od =>
        cases od with
        | none =>
          rw [main_eq_read_none w hauth hread] at h
          have hc : code = 1 := by
            injection h with h1
            exact (congrArg Prod.fst h1).symm
          subst hc
          refine ⟨fun d2 net2 => import_success_iff d2 net2,
            ⟨fun _ => Or.inr (Or.inl hread), fun _ => rfl⟩, ?_⟩
          constructor
          · intro h10
            exact absurd h10 (by simp)
          · rintro (⟨_, fd2, ⟨d2, hrp2, _⟩, _, _⟩ | ⟨_, ⟨fd2, d2, hrp2, _⟩, _⟩) <;>
              · rw [hread] at hrp2
                simp at hrp2
        | some d =>
          cases hfilt : filter_default_data d with
          | error ef =>
            rw [main_eq_filter_err w d ef hauth hread hfilt] at h
            exact absurd h (by simp)
          | ok fd =>
            rw [main_eq_pipeline w d fd hauth hread hfilt] at h
            by_cases hin : pyLower (pyStrip w.input) = "y"
            · rw [if_neg (fun hc => hc hin)] at h
              have hcr : (if (import_all_data fd w.net).1 = true then (0 : Nat) else 1) =
                  code := by
                injection h with h1
                exact congrArg Prod.fst h1
              cases hsucc : (import_all_data fd w.net).1 with
              | true =>
                have hc : code = 0 := by
                  rw [if_pos hsucc] at hcr
                  exact hcr.symm
                subst hc
                have hS : uploadSucceededP w := ⟨hnA, fd, ⟨d, hread, hfilt⟩, hin, hsucc⟩
                refine ⟨fun d2 net2 => import_success_iff d2 net2, ?_,
                  ⟨fun _ => Or.inl hS, fun _ => rfl⟩⟩
                constructor
                · intro h01
                  exact absurd h01 (by simp)
                · rintro (hA | hR | ⟨fd2, ⟨d2, hrp2, hf2⟩, _, hfail⟩)
                  · exact absurd hA hnA
                  · have hR2 : readPhase w = Except.ok Option.none := hR
                    rw [hread] at hR2
                    exact absurd hR2 (by simp)
                  · rw [hread] at hrp2
                    simp at hrp2
                    subst hrp2
                    rw [hfilt] at hf2
                    simp at hf2
                    subst hf2
                    rw [hsucc] at hfail
                    exact absurd hfail (by simp)
              | false =>
                have hc : code = 1 := by
                  rw [if_neg (by simp [hsucc])] at hcr
                  exact hcr.symm
                subst hc
                have hU : uploadFailedP w := ⟨fd, ⟨d, hread, hfilt⟩, hin, hsucc⟩
                refine ⟨fun d2 net2 => import_success_iff d2 net2,
                  ⟨fun _ => Or.inr (Or.inr hU), fun _ => rfl⟩, ?_⟩
                constructor
                · intro h10
                  exact absurd h10 (by simp)
                · rintro (⟨_, fd2, ⟨d2, hrp2, hf2⟩, _, hok⟩ | ⟨_, _, hnp⟩)
                  · rw [hread] at hrp2
                    simp at hrp2
                    subst hrp2
                    rw [hfilt] at hf2
                    simp at hf2
                    subst hf2
                    rw [hsucc] at hok
                    exact absurd hok (by simp)
                  · exact absurd hin hnp
            · rw [if_pos hin] at h
              have hc : code = 0 := by
                injection h with h1
                exact (congrArg Prod.fst h1).symm
              subst hc
              have hAb : abortedP w := ⟨hnA, ⟨fd, d, hread, hfilt⟩, hin⟩
              refine ⟨fun d2 net2 => import_success_iff d2 net2, ?_,
                ⟨fun _ => Or.inr hAb, fun _ => rfl⟩⟩
              constructor
              · intro h01
                exact absurd h01 (by simp)
              · rintro (hA | hR | ⟨fd2, _, hp2, _⟩)
                · exact absurd hA hnA
                · have hR2 : readPhase w = Except.ok Option.none := hR
                  rw [hread] at hR2
                  exact absurd hR2 (by simp)
                · exact absurd hp2 hin

/-- C6 witness: a run that authenticates, reads one user, confirms with y
and uploads with a 200 response exits with code 0 after one request. -/
theorem claim_C6_witness :
    main worldOk = Except.ok (0, 1) ∧
    ((∀ d2 net2, (import_all_data d2 net2).1 = true ↔ noEndpointFailure d2 net2) ∧
     ((0 : Nat) = 1 ↔ (authErrP worldOk ∨ readsFailedP worldOk ∨ uploadFailedP worldOk)) ∧
     ((0 : Nat) = 0 ↔ (uploadSucceededP worldOk ∨ abortedP worldOk))) :=
  ⟨rfl, claim_C6 worldOk 0 1 rfl⟩

/-- C10: every category other than the five specially treated ones is
present in the filter output with exactly its input record sequence. -/
theorem claim_C10 (d out : Data) (h : filter_default_data d = Except.ok out)
    (k : String) (hk : k ∉ FILTERED_KEYS) : out.lookup k = d.lookup k := by
  cases hmb : filteredMicroblogsEntry d with
  | error msg =>
    unfold filter_default_data at h
    rw [hmb] at h
    exact absurd h (by simp [Bind.bind, Except.bind])
  | ok mbs =>
    have hout := dropErr_ok d mbs hmb out h
    have hffk : (filteredFive d mbs).lookup k = Option.none := by
      apply lookup_none_of_keys
      intro kv hkv hc
      exact hk (hc ▸ filteredFive_keys d mbs hmb kv hkv)
    rw [hout, lookup_append_none k _ _ hffk]
    apply lookup_filter_eq
    intro kv _ hkvk
    rw [hkvk, hffk]
    rfl

/-- C10 witness: classrooms rows derived from a default user pass through
unchanged while the users list itself is filtered. -/
theorem claim_C10_witness :
    filter_default_data mixedData = Except.ok mixedDataFiltered ∧
    "classrooms" ∉ FILTERED_KEYS ∧
    mixedDataFiltered.lookup "classrooms" = mixedData.lookup "classrooms" :=
  ⟨by rfl, by decide,
   claim_C10 mixedData mixedDataFiltered (by rfl) "classrooms" (by decide)⟩

end DbRestore
